import Mathlib

/-!
Verification of the health-facilities dashboard (`app.py`).

The script loads a CSV of Chilean health facilities, keeps the
Metropolitan-region rows, derives coordinate / address / sector columns,
filters and sorts the rows from sidebar selections, and offers an
on-demand query against the datos.gob.cl REST API.  This file embeds the
data model and the pure logic of that script and proves properties of it.
-/

/-! ## String utilities (models of Python `in`, `str.lower`, `str.strip`) -/

/-- Is `pat` a prefix of `s` (on character lists)? -/
def esPrefijo : List Char → List Char → Bool
  | [], _ => true
  | _ :: _, [] => false
  | a :: as, b :: bs => a == b && esPrefijo as bs

/-- Does `s` have `pat` as a contiguous substring (on character lists)? -/
def tieneSub (pat : List Char) : List Char → Bool
  | [] => pat.isEmpty
  | c :: rest => esPrefijo pat (c :: rest) || tieneSub pat rest

/-- Model of Python `pat in s` (substring containment, case sensitive).
It also models `Series.str.contains` with a pattern free of regex
metacharacters, as in `str.contains("Metropolitana")`. -/
def strContains (s pat : String) : Bool :=
  tieneSub pat.data s.data

/-- Model of Python `str.lower()` (ASCII lowering, which covers every
marker the classifier tests). -/
def pyLower (s : String) : String :=
  String.mk (s.data.map Char.toLower)

/-- Model of Python `str.strip()`: drop leading and trailing whitespace. -/
def pyStrip (s : String) : String :=
  String.mk (((s.data.dropWhile Char.isWhitespace).reverse.dropWhile
    Char.isWhitespace).reverse)

/-! ## Sector Classifier (`clasificar`, app.py lines 36-44) -/

/-- A Python value as it may appear in a pandas cell: a string, the NaN
placeholder for a missing value, or some other non-string scalar. -/
inductive PyVal where
  | nan : PyVal
  | str (s : String) : PyVal
  | int (n : Int) : PyVal
  | bool (b : Bool) : PyVal
deriving DecidableEq

/-- `clasificar` from app.py: non-strings are `"Otro"`; otherwise lower the
text, return `"Privado"` when it contains `"privad"`, else `"Público"` when
it contains `"municipal"`, `"servicio de salud"` or `"seremi"`, else
`"Otro"`. -/
def clasificar (dep : PyVal) : String :=
  match dep with
  | .str s =>
    let d := pyLower s
    if strContains d "privad" then "Privado"
    else if strContains d "municipal" || strContains d "servicio de salud"
            || strContains d "seremi" then "Público"
    else "Otro"
  | _ => "Otro"

/-! ## Dataset Loader (`cargar_datos`, app.py lines 9-48) -/

/-- A raw CSV row, with the columns `cargar_datos` touches.  Text cells are
`Option String` (`none` is a missing value, NaN in pandas); the dependency
cell keeps the full `PyVal` range because `clasificar` guards against
non-string scalars; numeric-looking cells such as `Numero`, `Latitud` and
`Longitud` are modelled by their textual rendering. -/
structure CsvRow where
  RegionGlosa : Option String
  ComunaGlosa : Option String
  EstablecimientoGlosa : Option String
  TipoEstablecimientoGlosa : Option String
  NivelAtencionEstabglosa : Option String
  DependenciaAdministrativa : PyVal
  TipoViaGlosa : Option String
  NombreVia : Option String
  Numero : Option String
  Latitud : Option String
  Longitud : Option String
  TelefonoMovil_TelefonoFijo : Option String
deriving DecidableEq

/-- The region filter of line 22:
`df["RegionGlosa"].str.contains("Metropolitana", na=False)` — keep a row
exactly when its region cell is present and contains `"Metropolitana"`
as a (case-sensitive) substring; missing cells give `False` (`na=False`). -/
def regionKeep (r : CsvRow) : Bool :=
  match r.RegionGlosa with
  | none => false
  | some s => strContains s "Metropolitana"

/-- Decimal digits to a natural number. -/
def digitosANat (cs : List Char) : Nat :=
  cs.foldl (fun n c => n * 10 + (c.toNat - 48)) 0

/-- Split a character list at the decimal points. -/
def separaPunto : List Char → List (List Char)
  | [] => [[]]
  | c :: cs =>
    if c == '.' then [] :: separaPunto cs
    else
      match separaPunto cs with
      | [] => [[c]]
      | p :: ps => (c :: p) :: ps

/-- Parse an unsigned decimal numeral (`"12"`, `"12.5"`, `".5"`, `"12."`). -/
def parseSinSigno (cs : List Char) : Option Rat :=
  match separaPunto cs with
  | [ip] =>
    if ip.length > 0 && ip.all Char.isDigit then
      some (digitosANat ip : Rat)
    else none
  | [ip, fp] =>
    if (ip.length > 0 || fp.length > 0) && ip.all Char.isDigit
        && fp.all Char.isDigit then
      some ((digitosANat ip : Rat)
        + (digitosANat fp : Rat) / ((10 : Rat) ^ fp.length))
    else none
  | _ => none

/-- Model of `pd.to_numeric(x, errors="coerce")` on a text cell: a decimal
numeral (optionally signed) parses to its value, anything else coerces to
null instead of raising. -/
def toNumeric (s : String) : Option Rat :=
  match s.data with
  | '-' :: t => (parseSinSigno t).map (fun q => -q)
  | '+' :: t => parseSinSigno t
  | _ => parseSinSigno s.data

/-- The derived address of lines 29-33:
`(TipoViaGlosa.fillna("") + " " + NombreVia.fillna("") + " " +
Numero.fillna("").astype(str)).str.strip()`. -/
def direccionDe (r : CsvRow) : String :=
  pyStrip (r.TipoViaGlosa.getD "" ++ " " ++ r.NombreVia.getD "" ++ " "
    ++ r.Numero.getD "")

/-- Address as §4.1 of the spec words it: concatenate street-type,
street-name and number (each defaulting to the empty string when null)
with single spaces, then trim leading/trailing whitespace. -/
def direccionSegunSpec (tipoVia nombreVia numero : Option String) : String :=
  pyStrip (tipoVia.getD "" ++ " " ++ nombreVia.getD "" ++ " " ++ numero.getD "")

/-- A processed facility row (a row of the loader's output `df_rm`). -/
structure Fila where
  region : Option String
  comuna : Option String
  establecimiento : Option String
  tipo : Option String
  nivel : Option String
  latitud : Option Rat
  longitud : Option Rat
  direccion : String
  sistema : String
  telefono : Option String
deriving DecidableEq

/-- The per-row work of `cargar_datos` after the region filter: coerce the
coordinates (missing cells stay null), derive the address, and classify the
administrative dependency. -/
def procesarFila (r : CsvRow) : Fila where
  region := r.RegionGlosa
  comuna := r.ComunaGlosa
  establecimiento := r.EstablecimientoGlosa
  tipo := r.TipoEstablecimientoGlosa
  nivel := r.NivelAtencionEstabglosa
  latitud := r.Latitud.bind toNumeric
  longitud := r.Longitud.bind toNumeric
  direccion := direccionDe r
  sistema := clasificar r.DependenciaAdministrativa
  telefono := r.TelefonoMovil_TelefonoFijo

/-- `cargar_datos` on an already-parsed CSV: keep the Metropolitan-region
rows and derive the computed columns. -/
def cargar_datos (rows : List CsvRow) : List Fila :=
  (rows.filter regionKeep).map procesarFila

/-! ## Filter/Sort Engine (app.py lines 126-160) -/

/-- Insert a string into a `≤`-sorted list of strings. -/
def insertaStr (x : String) : List String → List String
  | [] => [x]
  | y :: ys => if x ≤ y then x :: y :: ys else y :: insertaStr x ys

/-- Model of Python `sorted` on strings (insertion sort). -/
def sortStr : List String → List String
  | [] => []
  | x :: xs => insertaStr x (sortStr xs)

/-- Option list of a nullable column, lines 126-129:
`sorted(df[col].dropna().unique())`. -/
def opciones (df : List Fila) (get : Fila → Option String) : List String :=
  sortStr (df.filterMap get).dedup

/-- Option list of the (never-null) derived sector column, line 128. -/
def opcionesSistema (df : List Fila) : List String :=
  sortStr (df.map (fun r => r.sistema)).dedup

/-- The filter selection read from the sidebar (the sort controls are
passed separately). -/
structure Filtros where
  nombre : String
  comunas : List String
  tipos : List String
  sistemas : List String
  niveles : List String
deriving DecidableEq

/-- The default selection: empty search text and every multi-select left
at its `default=` list (all distinct non-null values of its column). -/
def filtrosPorDefecto (df : List Fila) : Filtros where
  nombre := ""
  comunas := opciones df (fun r => r.comuna)
  tipos := opciones df (fun r => r.tipo)
  sistemas := opcionesSistema df
  niveles := opciones df (fun r => r.nivel)

/-- Name search of lines 148-151:
`str.contains(nombre_filtro, case=False, na=False)` — case-insensitive
containment, null names never match. -/
def nombreMatch (r : Fila) (q : String) : Bool :=
  match r.establecimiento with
  | none => false
  | some s => strContains (pyLower s) (pyLower q)

/-- Model of `Series.isin(sel)` on a nullable column: a null cell is never
a member (the selection lists hold no null). -/
def isinOpt (v : Option String) (sel : List String) : Bool :=
  match v with
  | none => false
  | some s => sel.contains s

/-- The filtering stage, lines 146-158: the name filter applies only when
the query is non-empty, then the four `isin` membership tests are
AND-combined. -/
def filtrar (df : List Fila) (f : Filtros) : List Fila :=
  let d1 := if f.nombre ≠ "" then df.filter (fun r => nombreMatch r f.nombre)
            else df
  d1.filter (fun r => isinOpt r.comuna f.comunas
    && isinOpt r.tipo f.tipos
    && f.sistemas.contains r.sistema
    && isinOpt r.nivel f.niveles)

/-- The sort key selector of line 142: `EstablecimientoGlosa` for
"Nombre", `ComunaGlosa` for "Comuna". -/
inductive Campo where
  | nombre : Campo
  | comuna : Campo
deriving DecidableEq

/-- The sort key of a row under the chosen field. -/
def claveOrden (campo : Campo) (r : Fila) : Option String :=
  match campo with
  | .nombre => r.establecimiento
  | .comuna => r.comuna

/-- Key comparison of `sort_values(ascending=asc)`: present values compare
lexicographically in the chosen direction, null keys go last either way
(`na_position="last"`). -/
def leClave (asc : Bool) (a b : Option String) : Bool :=
  match a, b with
  | some x, some y => if asc then decide (x ≤ y) else decide (y ≤ x)
  | some _, none => true
  | none, some _ => false
  | none, none => true

/-- Insert a row into a list sorted by `leClave` on its sort key. -/
def insertaFila (campo : Campo) (asc : Bool) (x : Fila) :
    List Fila → List Fila
  | [] => [x]
  | y :: ys =>
    if leClave asc (claveOrden campo x) (claveOrden campo y) then
      x :: y :: ys
    else y :: insertaFila campo asc x ys

/-- A deterministic model of `sort_values(by=columna_orden, ascending=asc)`
(line 160): sort the rows by the chosen key in the chosen direction.
The source call uses the pandas default `kind="quicksort"`, so the model
fixes one deterministic order for ties but the library does not promise
which one the script produces. -/
def ordenar (df : List Fila) (campo : Campo) (asc : Bool) : List Fila :=
  df.foldr (insertaFila campo asc) []

/-- One run of the Filter/Sort Engine, lines 146-160.  The run starts from
`df.copy()` and every pandas step used (boolean indexing, `sort_values`)
returns a fresh frame, so the engine is modelled as returning its view
together with the untouched full dataset. -/
def engineRun (df : List Fila) (f : Filtros) (campo : Campo) (asc : Bool) :
    List Fila × List Fila :=
  let copia := df
  (ordenar (filtrar copia f) campo asc, df)

/-! ## Map and table views (app.py lines 179-184 and 195-206) -/

/-- The map data, line 179: `dropna(subset=["Latitud", "Longitud"])` —
only rows with both coordinates present are mapped. -/
def df_mapa (df : List Fila) : List Fila :=
  df.filter (fun r => r.latitud.isSome && r.longitud.isSome)

/-- A row of the detail table (the seven projected columns of
`columnas_tabla`, lines 195-203). -/
structure FilaTabla where
  establecimiento : Option String
  tipo : Option String
  comuna : Option String
  direccion : String
  sistema : String
  nivel : Option String
  telefono : Option String
deriving DecidableEq

/-- Projection of one row onto the table columns. -/
def proyectar (r : Fila) : FilaTabla where
  establecimiento := r.establecimiento
  tipo := r.tipo
  comuna := r.comuna
  direccion := r.direccion
  sistema := r.sistema
  nivel := r.nivel
  telefono := r.telefono

/-- Column projection of line 206: every filtered row appears in the
table, whatever its coordinates. -/
def tabla (df : List Fila) : List FilaTabla :=
  df.map proyectar

/-! ## Remote Query Client (`consultar_api_datos_gob`, app.py lines 55-82) -/

/-- A JSON value, as `r.json()` may produce. -/
inductive Json where
  | null : Json
  | bool (b : Bool) : Json
  | num (n : Int) : Json
  | str (s : String) : Json
  | arr (xs : List Json) : Json
  | obj (fields : List (String × Json)) : Json

/-- Python truthiness of a JSON value (`if not data.get(...)`). -/
def Json.truthy : Json → Bool
  | .null => false
  | .bool b => b
  | .num n => n != 0
  | .str s => s != ""
  | .arr xs => !xs.isEmpty
  | .obj fs => !fs.isEmpty

/-- Python `data.get(key, default)`: well-defined only on a dict, where an
absent key gives the default; on any other value the attribute access
raises (`AttributeError`). -/
def pyDictGet (j : Json) (key : String) (d : Json) : Except String Json :=
  match j with
  | .obj fs => .ok ((fs.lookup key).getD d)
  | _ => .error "AttributeError"

/-- What one call of the client can observe from `requests.get`: either a
raised `RequestException` (connection error or timeout), or a response
with a status code and a body; `none` as body means `r.json()` cannot
parse it as JSON. -/
inductive HttpOutcome where
  | requestException (e : String) : HttpOutcome
  | response (status : Nat) (body : Option Json) : HttpOutcome

/-- How one call of `consultar_api_datos_gob` ends: an exception escaping
to the caller, `None` together with an advisory message (`st.error`,
`st.warning` or `st.info`), or a dataframe built from the records. -/
inductive ApiResult where
  | raised (exc : String) : ApiResult
  | noDataError (msg : String) : ApiResult
  | noDataWarning (msg : String) : ApiResult
  | noDataInfo (msg : String) : ApiResult
  | table (rows : List Json) : ApiResult

/-- Model of `pd.DataFrame(records)` on the shapes a JSON value can take.
A list gives one row per record.  A dict is column-oriented: its
list values are the columns and must all share one length, which becomes
the row count — possibly zero, as for `{"a": []}` — and its other values
are broadcast along the columns; a dict with no list value ("all scalar
values" needs an index), a dict whose columns differ in length, and a
non-dict scalar each raise `ValueError`.  (A dict value that is itself a
dict is treated here as a broadcast scalar; pandas' Series-index
alignment for such values is not modelled.) -/
def pdDataFrame : Json → Except String (List Json)
  | .arr xs => .ok xs
  | .obj fs =>
    match fs.filterMap (fun p =>
        match p.2 with | .arr v => some v.length | _ => none) with
    | [] => .error "ValueError"
    | n :: rest =>
      if rest.all (fun m => m == n) then
        .ok ((List.range n).map (fun i =>
          Json.obj (fs.map (fun p =>
            (p.1, match p.2 with
              | .arr v => v.getD i .null
              | x => x)))))
      else .error "ValueError"
  | _ => .error "ValueError"

/-- `consultar_api_datos_gob`, lines 55-82.  Only the `requests.get` call
sits in a `try`; `data = r.json()` (line 72), the `data.get` chain and
`pd.DataFrame(records)` run unprotected, so a 200 response whose body is
not JSON, or is JSON but not an object, raises, and so does a records
value `pd.DataFrame` rejects. -/
def consultar_api_datos_gob (o : HttpOutcome) : ApiResult :=
  match o with
  | .requestException e =>
    .noDataError ("Error de conexión con datos.gob.cl: " ++ e)
  | .response status body =>
    if status ≠ 200 then
      .noDataError ("Error al obtener datos (status code "
        ++ toString status ++ ").")
    else
      match body with
      | none => .raised "JSONDecodeError"
      | some data =>
        match pyDictGet data "success" (.bool false) with
        | .error exc => .raised exc
        | .ok sv =>
          if !sv.truthy then
            .noDataWarning
              "La API respondió pero 'success' es False. Revisa el resource_id."
          else
            match pyDictGet data "result" (.obj []) with
            | .error exc => .raised exc
            | .ok resv =>
              match pyDictGet resv "records" (.arr []) with
              | .error exc => .raised exc
              | .ok records =>
                if !records.truthy then
                  .noDataInfo "La API no devolvió registros para este recurso."
                else
                  match pdDataFrame records with
                  | .ok rows => .table rows
                  | .error exc => .raised exc

/-! ## Concrete rows used by counterexamples and witnesses -/

/-- A plain CSV row every field of which is present. -/
def csvBase : CsvRow where
  RegionGlosa := some "Metropolitana de Santiago"
  ComunaGlosa := some "Maipú"
  EstablecimientoGlosa := some "CESFAM Uno"
  TipoEstablecimientoGlosa := some "CESFAM"
  NivelAtencionEstabglosa := some "Primario"
  DependenciaAdministrativa := .str "Municipal"
  TipoViaGlosa := some "Calle"
  NombreVia := some "Principal"
  Numero := some "123"
  Latitud := some "-33.5"
  Longitud := some "-70.7"
  TelefonoMovil_TelefonoFijo := some "221234567"

/-- A row from the Valparaíso region. -/
def csvValpo : CsvRow :=
  { csvBase with RegionGlosa := some "Valparaíso" }

/-- A Metropolitan row whose latitude cell is not numeric. -/
def csvCoordMala : CsvRow :=
  { csvBase with Latitud := some "not-a-number" }

/-- A Metropolitan row whose street-name cell is missing. -/
def csvSinVia : CsvRow :=
  { csvBase with NombreVia := none }

/-- A Metropolitan row whose commune cell is missing. -/
def csvComunaNula : CsvRow :=
  { csvBase with ComunaGlosa := none }

/-- A 200 response whose records value is a non-empty dict holding one
empty column — `pd.DataFrame({"a": []})` is a zero-row dataframe. -/
def respuestaDictVacia : HttpOutcome :=
  .response 200 (some (.obj [("success", .bool true),
    ("result", .obj [("records", .obj [("a", .arr [])])])]))

/-- A successful response whose records value is the empty list. -/
def respuestaListaVacia : HttpOutcome :=
  .response 200 (some (.obj [("success", .bool true),
    ("result", .obj [("records", .arr [])])]))

/-- A successful response whose records value is a one-record list. -/
def respuestaUnRegistro : HttpOutcome :=
  .response 200 (some (.obj [("success", .bool true),
    ("result", .obj [("records",
      .arr [.obj [("campo", .str "valor")]])])]))

/-! ## Helper lemmas -/

theorem mem_insertaStr {x a : String} {l : List String} :
    x ∈ insertaStr a l ↔ x = a ∨ x ∈ l := by
  induction l with
  | nil => simp [insertaStr]
  | cons y ys ih =>
    by_cases h : a ≤ y
    · simp [insertaStr, h]
    · simp only [insertaStr, if_neg h, List.mem_cons, ih]
      tauto

theorem mem_sortStr {x : String} {l : List String} :
    x ∈ sortStr l ↔ x ∈ l := by
  induction l with
  | nil => simp [sortStr]
  | cons y ys ih => simp [sortStr, mem_insertaStr, ih]

theorem mem_opciones {df : List Fila} {get : Fila → Option String}
    {c : String} :
    c ∈ opciones df get ↔ ∃ r, r ∈ df ∧ get r = some c := by
  unfold opciones
  rw [mem_sortStr, List.mem_dedup, List.mem_filterMap]

theorem mem_opcionesSistema {df : List Fila} {s : String} :
    s ∈ opcionesSistema df ↔ ∃ r, r ∈ df ∧ r.sistema = s := by
  unfold opcionesSistema
  rw [mem_sortStr, List.mem_dedup, List.mem_map]

/-! ## The claims -/

/-- C4: the Sector Classifier is a total, deterministic function of the
dependency text alone: every input yields exactly one of `"Público"`,
`"Privado"`, `"Otro"`, it never fails, and every non-string input (NaN,
numbers, booleans) maps to `"Otro"`. -/
theorem clasificar_total (dep : PyVal) :
    (clasificar dep = "Público" ∨ clasificar dep = "Privado" ∨
      clasificar dep = "Otro") ∧
    clasificar .nan = "Otro" ∧
    (∀ n : Int, clasificar (.int n) = "Otro") ∧
    (∀ b : Bool, clasificar (.bool b) = "Otro") := by
  refine ⟨?_, rfl, fun n => rfl, fun b => rfl⟩
  cases dep with
  | str s =>
    by_cases h1 : strContains (pyLower s) "privad"
    · simp [clasificar, h1]
    · by_cases h2 : strContains (pyLower s) "municipal"
        || strContains (pyLower s) "servicio de salud"
        || strContains (pyLower s) "seremi"
      · simp [clasificar, h1, h2]
      · simp [clasificar, h1, h2]
  | nan => simp [clasificar]
  | int n => simp [clasificar]
  | bool b => simp [clasificar]

/-- C5: classifier precedence — any text whose lowering contains both the
private marker `"privad"` and the public marker `"municipal"` classifies
as `"Privado"`: the private rule is checked first. -/
theorem clasificar_precedencia (s : String)
    (hpriv : strContains (pyLower s) "privad" = true)
    (_hmuni : strContains (pyLower s) "municipal" = true) :
    clasificar (.str s) = "Privado" := by
  simp [clasificar, hpriv]

/-- Witness for C5 at the concrete label "Hospital PRIVADO Municipal". -/
theorem clasificar_precedencia_aplicado :
    clasificar (.str "Hospital PRIVADO Municipal") = "Privado" :=
  clasificar_precedencia "Hospital PRIVADO Municipal" (by decide) (by decide)

/-- C6: the loader keeps exactly the rows whose region cell is present and
contains `"Metropolitana"` as a case-sensitive substring (null regions are
excluded); a `"Valparaíso"` row is excluded and a
`"Metropolitana de Santiago"` row is included. -/
theorem cargar_filtro_region :
    (∀ (rows : List CsvRow) (r : CsvRow),
        r ∈ rows.filter regionKeep ↔
          r ∈ rows ∧ ∃ s, r.RegionGlosa = some s ∧
            strContains s "Metropolitana" = true) ∧
    (∀ rows : List CsvRow,
        cargar_datos rows = (rows.filter regionKeep).map procesarFila) ∧
    regionKeep csvValpo = false ∧
    regionKeep csvBase = true := by
  refine ⟨?_, fun rows => rfl, by decide, by decide⟩
  intro rows r
  have hp : regionKeep r = true ↔
      ∃ s, r.RegionGlosa = some s ∧ strContains s "Metropolitana" = true := by
    cases h : r.RegionGlosa with
    | none => simp [regionKeep, h]
    | some s => simp [regionKeep, h]
  rw [List.mem_filter, hp]

/-- C8 counterexample: a row with a present street type, a missing street
name and a present number yields the address `"Calle  123"`, which contains
two consecutive internal spaces — the claim that the result never contains
consecutive internal spaces is false. -/
theorem direccion_espacios_contraejemplo :
    (procesarFila csvSinVia).direccion = "Calle  123" ∧
    strContains (procesarFila csvSinVia).direccion "  " = true := by
  constructor <;> decide

/-- C8 (amended): the derived Address equals the street-type, street-name
and number cells (empty string when null) joined with single spaces and
trimmed of leading and trailing whitespace — exactly the spec's formula;
consecutive internal spaces can remain when a middle field is null. -/
theorem direccion_construccion (r : CsvRow) :
    (procesarFila r).direccion
      = direccionSegunSpec r.TipoViaGlosa r.NombreVia r.Numero := rfl

/-- C7: coordinate coercion never raises — the cell `"not-a-number"`
coerces to null; a region-matching row stays in the loaded dataset
whatever its coordinate cells hold; a row with a null coordinate is
excluded from the map data but its projection still appears in the
table. -/
theorem coercion_coordenadas :
    toNumeric "not-a-number" = none ∧
    (∀ (rows : List CsvRow) (r : CsvRow), r ∈ rows → regionKeep r = true →
        procesarFila r ∈ cargar_datos rows) ∧
    (∀ (df : List Fila) (r : Fila), r ∈ df →
        (r.latitud = none ∨ r.longitud = none) → r ∉ df_mapa df) ∧
    (∀ (df : List Fila) (r : Fila), r ∈ df → proyectar r ∈ tabla df) := by
  refine ⟨by decide, ?_, ?_, ?_⟩
  · intro rows r hr hk
    exact List.mem_map_of_mem procesarFila (List.mem_filter.mpr ⟨hr, hk⟩)
  · intro df r _ hnull hmem
    have := (List.mem_filter.mp hmem).2
    rcases hnull with h | h <;> simp [h] at this
  · intro df r hr
    exact List.mem_map_of_mem proyectar hr

/-- Witness for C7 at a concrete Metropolitan row whose latitude cell
reads `"not-a-number"`. -/
theorem coercion_coordenadas_aplicado :
    toNumeric "not-a-number" = none ∧
    procesarFila csvCoordMala ∈ cargar_datos [csvCoordMala] ∧
    procesarFila csvCoordMala ∉ df_mapa (cargar_datos [csvCoordMala]) ∧
    proyectar (procesarFila csvCoordMala)
      ∈ tabla (cargar_datos [csvCoordMala]) :=
  ⟨coercion_coordenadas.1,
   coercion_coordenadas.2.1 [csvCoordMala] csvCoordMala (by simp) (by decide),
   coercion_coordenadas.2.2.1 (cargar_datos [csvCoordMala])
     (procesarFila csvCoordMala)
     (coercion_coordenadas.2.1 [csvCoordMala] csvCoordMala (by simp) (by decide))
     (Or.inl (by decide)),
   coercion_coordenadas.2.2.2 (cargar_datos [csvCoordMala])
     (procesarFila csvCoordMala)
     (coercion_coordenadas.2.1 [csvCoordMala] csvCoordMala (by simp) (by decide))⟩

/-- C2 counterexample: a loaded dataset consisting of one row whose
commune cell is null is not preserved by the default filter selection —
the filtered result is empty although the full dataset has one row, so
the default state is not a no-op on rows with a null Commune. -/
theorem filtro_defecto_contraejemplo :
    (cargar_datos [csvComunaNula]).length = 1 ∧
    filtrar (cargar_datos [csvComunaNula])
      (filtrosPorDefecto (cargar_datos [csvComunaNula])) = [] := by
  constructor <;> decide

/-- C2 (amended): with every multi-select left at its default list and an
empty text query, the filtering stage is the identity on every loaded
dataset all of whose rows carry a non-null Commune, Type and Care level
(the derived Sector is never null); a row with a null in one of those
columns is dropped even at the default selection, because `isin` never
matches a null cell. -/
theorem filtro_defecto_identidad (df : List Fila)
    (h : ∀ r ∈ df, r.comuna.isSome ∧ r.tipo.isSome ∧ r.nivel.isSome) :
    filtrar df (filtrosPorDefecto df) = df := by
  unfold filtrar
  rw [if_neg (by simp [filtrosPorDefecto])]
  rw [List.filter_eq_self]
  intro r hr
  obtain ⟨hc, ht, hn⟩ := h r hr
  obtain ⟨c, hc'⟩ := Option.isSome_iff_exists.mp hc
  obtain ⟨t, ht'⟩ := Option.isSome_iff_exists.mp ht
  obtain ⟨n, hn'⟩ := Option.isSome_iff_exists.mp hn
  have hcm : c ∈ (filtrosPorDefecto df).comunas :=
    mem_opciones.mpr ⟨r, hr, hc'⟩
  have htm : t ∈ (filtrosPorDefecto df).tipos :=
    mem_opciones.mpr ⟨r, hr, ht'⟩
  have hnm : n ∈ (filtrosPorDefecto df).niveles :=
    mem_opciones.mpr ⟨r, hr, hn'⟩
  have hsm : r.sistema ∈ (filtrosPorDefecto df).sistemas :=
    mem_opcionesSistema.mpr ⟨r, hr, rfl⟩
  simp only [isinOpt, hc', ht', hn', Bool.and_eq_true]
  exact ⟨⟨⟨List.elem_eq_true_of_mem hcm, List.elem_eq_true_of_mem htm⟩,
    List.elem_eq_true_of_mem hsm⟩, List.elem_eq_true_of_mem hnm⟩

/-- Witness for the amended C2 at a concrete one-row loaded dataset with
no null cells. -/
theorem filtro_defecto_identidad_aplicado :
    filtrar (cargar_datos [csvBase]) (filtrosPorDefecto (cargar_datos [csvBase]))
      = cargar_datos [csvBase] :=
  filtro_defecto_identidad (cargar_datos [csvBase]) (by decide)

/-- C9: the Filter/Sort Engine is a pure transformation — one run leaves
the full dataset it consumed unchanged (the run works on `df.copy()` and
every pandas step returns a fresh frame), and a second run on identical
inputs (the dataset as it stands after the first run, with the same
selection) produces an identical view. -/
theorem engine_puro (df : List Fila) (f : Filtros) (campo : Campo)
    (asc : Bool) :
    (engineRun df f campo asc).2 = df ∧
    (engineRun df f campo asc).1
      = (engineRun (engineRun df f campo asc).2 f campo asc).1 :=
  ⟨rfl, rfl⟩

/-- C10 counterexample: a 200 response whose records value is the
non-empty dict `{"a": []}` passes the `if not records:` guard (a
non-empty dict is truthy) and `pd.DataFrame({"a": []})` builds a
dataframe with zero rows — so the client can return an empty table,
against the claim that every returned table has at least one row. -/
theorem api_tabla_vacia_contraejemplo :
    consultar_api_datos_gob respuestaDictVacia = .table [] :=
  rfl

/-- C10 (amended): when the records value of a successful response is a
list — the shape the endpoint contract promises — the client never
returns an empty table: the empty list is turned into `None` with an
informational message before the dataframe is built, and a non-empty
list becomes a table with one row per record.  (A malformed dict-shaped
records value can instead yield a zero-row table, per the
counterexample.) -/
theorem api_tabla_lista_no_vacia (fs rfs : List (String × Json))
    (ys : List Json)
    (hsucc : ((fs.lookup "success").getD (Json.bool false)).truthy = true)
    (hres : (fs.lookup "result").getD (Json.obj []) = Json.obj rfs)
    (hrec : (rfs.lookup "records").getD (Json.arr []) = Json.arr ys) :
    (ys = [] → consultar_api_datos_gob (.response 200 (some (.obj fs)))
        = .noDataInfo "La API no devolvió registros para este recurso.") ∧
    (ys ≠ [] → consultar_api_datos_gob (.response 200 (some (.obj fs)))
        = .table ys ∧ ys ≠ []) := by
  constructor
  · intro hvacia
    subst hvacia
    simp only [consultar_api_datos_gob, pyDictGet, hsucc, hres, hrec]
    rfl
  · intro hny
    refine ⟨?_, hny⟩
    have ht : (Json.arr ys).truthy = true := by
      cases ys with
      | nil => exact absurd rfl hny
      | cons a as => rfl
    simp only [consultar_api_datos_gob, pyDictGet, hsucc, hres, hrec, ht]
    rfl

/-- Witness for the amended C10 at the concrete empty-list and
one-record-list responses. -/
theorem api_tabla_lista_no_vacia_aplicado :
    consultar_api_datos_gob respuestaListaVacia
      = .noDataInfo "La API no devolvió registros para este recurso." ∧
    consultar_api_datos_gob respuestaUnRegistro
      = .table [Json.obj [("campo", Json.str "valor")]] :=
  ⟨(api_tabla_lista_no_vacia [("success", Json.bool true),
      ("result", Json.obj [("records", Json.arr [])])]
      [("records", Json.arr [])] [] rfl rfl rfl).1 rfl,
   ((api_tabla_lista_no_vacia [("success", Json.bool true),
      ("result", Json.obj [("records",
        Json.arr [Json.obj [("campo", Json.str "valor")]])])]
      [("records", Json.arr [Json.obj [("campo", Json.str "valor")]])]
      [Json.obj [("campo", Json.str "valor")]] rfl rfl rfl).2
      (by simp)).1⟩

/-- C1 counterexample: a 200 response whose body is not parseable JSON is
not converted to "no data" with an advisory message — `data = r.json()`
(line 72) runs outside the `try`, so the exception escapes to the caller.
The claim's "any malformed response body" case is therefore false. -/
theorem api_malformado_contraejemplo :
    consultar_api_datos_gob (.response 200 none) = .raised "JSONDecodeError" :=
  rfl

/-- C1 (amended): for a connection error or timeout, a non-200 HTTP
status, a response whose `success` flag is falsy, and a response with an
empty records list, the client returns `None` together with an advisory
message (an error, error, warning and info message respectively) and no
exception escapes; in particular a non-200 status yields `None` with a
status-error message.  (A malformed body — unparseable JSON or a
non-object value — instead raises, per the counterexample.) -/
theorem api_fallos_controlados :
    (∀ e, consultar_api_datos_gob (.requestException e)
        = .noDataError ("Error de conexión con datos.gob.cl: " ++ e)) ∧
    (∀ status body, status ≠ 200 →
        consultar_api_datos_gob (.response status body)
          = .noDataError ("Error al obtener datos (status code "
              ++ toString status ++ ").")) ∧
    (∀ fs, ((fs.lookup "success").getD (Json.bool false)).truthy = false →
        consultar_api_datos_gob (.response 200 (some (.obj fs)))
          = .noDataWarning
              "La API respondió pero 'success' es False. Revisa el resource_id.") ∧
    (∀ fs rfs, ((fs.lookup "success").getD (Json.bool false)).truthy = true →
        (fs.lookup "result").getD (Json.obj []) = Json.obj rfs →
        ((rfs.lookup "records").getD (Json.arr [])).truthy = false →
        consultar_api_datos_gob (.response 200 (some (.obj fs)))
          = .noDataInfo "La API no devolvió registros para este recurso.") := by
  refine ⟨fun e => rfl, ?_, ?_, ?_⟩
  · intro status body hs
    simp only [consultar_api_datos_gob]
    rw [if_pos hs]
  · intro fs hfalso
    simp only [consultar_api_datos_gob, pyDictGet, hfalso]
    rfl
  · intro fs rfs hverdad hres hvacio
    simp only [consultar_api_datos_gob, pyDictGet, hverdad, hres, hvacio]
    rfl

/-- Witness for the amended C1 at four concrete outcomes, one per failure
kind. -/
theorem api_fallos_controlados_aplicado :
    consultar_api_datos_gob (.requestException "ReadTimeout")
      = .noDataError ("Error de conexión con datos.gob.cl: " ++ "ReadTimeout") ∧
    consultar_api_datos_gob (.response 404 none)
      = .noDataError ("Error al obtener datos (status code "
          ++ toString 404 ++ ").") ∧
    consultar_api_datos_gob (.response 200 (some (.obj [])))
      = .noDataWarning
          "La API respondió pero 'success' es False. Revisa el resource_id." ∧
    consultar_api_datos_gob
        (.response 200 (some (.obj [("success", Json.bool true)])))
      = .noDataInfo "La API no devolvió registros para este recurso." :=
  ⟨api_fallos_controlados.1 "ReadTimeout",
   api_fallos_controlados.2.1 404 none (by decide),
   api_fallos_controlados.2.2.1 [] rfl,
   api_fallos_controlados.2.2.2 [("success", Json.bool true)] [] rfl rfl rfl⟩
